import Mathlib

/-!
Verification development for the Stretch Reminder desktop utility
(`stretch_reminder.py`).  The file gives a shallow embedding of the parts of
the program the specification talks about — the settings store
(`validate_interval`, `load_config`, the apply handler's file write), the
reminder scheduler (`schedule_notification`, `notify_and_reschedule`,
the apply handler's timer reset, `cleanup_and_exit`), the settings window
management (`create_settings_window`, `on_closing`), the auto-start
registrar (`set_auto_start`) and the command loop (`process_commands`) —
and proves theorems about the embedded definitions.

Machine floats of the source are modelled as rationals; raised Python
exceptions become `Except` error values; the mutable module-level globals
become fields of explicit state records threaded through the functions.
-/

namespace StretchReminder

/-- The application name constant of the source. -/
def APP_NAME : String := "Stretch Reminder"

/-! ### Settings store -/

/-- The in-memory configuration record (the dict produced by `load_config`). -/
structure Config where
  interval_min : ℚ
  icon_path : String
  log_file : String
  auto_start : Bool
  minimize_to_tray : Bool
deriving DecidableEq

/-- The `default` dict of `load_config`. -/
def defaultConfig : Config :=
  { interval_min := 60
    icon_path := "icon.ico"
    log_file := "stretch_reminder.log"
    auto_start := false
    minimize_to_tray := true }

/-- `validate_interval`.  The argument is the result of `float(interval_min)`:
`some v` when the raw value parses to the number `v`, `none` when `float`
raises (non-numeric input).  All three failure branches of the source end in
the single generic `ValueError` message, because the two range errors raised
inside the `try` block are caught by the final handler and replaced. -/
def validate_interval : Option ℚ → Except String ℚ
  | none => .error "유효한 숫자를 입력해주세요."
  | some v =>
    if v ≤ 0 then .error "유효한 숫자를 입력해주세요."
    else if 1440 < v then .error "유효한 숫자를 입력해주세요."
    else .ok (max (1/10) v)

/-- A parsed on-disk JSON object for the config file: each field is `none`
when its key is absent.  `interval_min` stores the `float()` view of the
raw value (`some (some v)` present and numeric, `some none` present but
unparseable). -/
structure RawConfig where
  interval_min : Option (Option ℚ)
  icon_path : Option String
  log_file : Option String
  auto_start : Option Bool
  minimize_to_tray : Option Bool
deriving DecidableEq

/-- The on-disk config file as `load_config` can find it. -/
inductive ConfigFile
  | absent
  | malformed
  | object (raw : RawConfig)
deriving DecidableEq

/-- Serialisation of a configuration record, as written by `json.dump`. -/
def rawOfConfig (c : Config) : RawConfig :=
  { interval_min := some (some c.interval_min)
    icon_path := some c.icon_path
    log_file := some c.log_file
    auto_start := some c.auto_start
    minimize_to_tray := some c.minimize_to_tray }

/-- `load_config`.  Returns the configuration record together with the state
the config file is left in.  An absent file is created with the defaults; a
JSON parse failure returns the full default dict; a present object has each
missing key defaulted with `dict.get`, and then `validate_interval` is run on
the interval — when it raises, the `except` clause returns the full default
dict. -/
def load_config : ConfigFile → Config × ConfigFile
  | .absent => (defaultConfig, .object (rawOfConfig defaultConfig))
  | .malformed => (defaultConfig, .malformed)
  | .object raw =>
    match validate_interval (raw.interval_min.getD (some 60)) with
    | .ok v =>
      ({ interval_min := v
         icon_path := raw.icon_path.getD "icon.ico"
         log_file := raw.log_file.getD "stretch_reminder.log"
         auto_start := raw.auto_start.getD false
         minimize_to_tray := raw.minimize_to_tray.getD true }, .object raw)
    | .error _ => (defaultConfig, .object raw)

/-! ### Reminder scheduler

The scheduling globals of the source (`timer`, `interval_sec`,
`next_run_time`, `running`) become fields of `AppState`, together with
bookkeeping that makes the operational claims statable: the multiset of
timers that have been started and neither fired nor cancelled (`armed`),
a fresh-id supply, the number of `delayed_reschedule` bodies currently
sleeping before their rearm, and a count of notifications sent. -/

/-- A started `threading.Timer`: its identity, the delay it was created
with, and the absolute time at which it fires if not cancelled. -/
structure TimerHandle where
  id : Nat
  delay : ℚ
  fireAt : ℚ
deriving DecidableEq

/-- The scheduler-related program state. -/
structure AppState where
  timer : Option Nat
  armed : List TimerHandle
  interval_sec : ℚ
  next_run_time : Option ℚ
  running : Bool
  nextId : Nat
  pendingResched : Nat
  notificationsSent : Nat
deriving DecidableEq

/-- `schedule_notification`, run at time `now`: reads the current interval,
records `next_run_time = now + interval`, and starts a fresh one-shot
timer.  It performs no cancellation of any previously started timer: the
global `timer` variable is merely overwritten with the new handle. -/
def schedule_notification (now : ℚ) (s : AppState) : AppState :=
  let current_interval := s.interval_sec
  { s with
    next_run_time := some (now + current_interval)
    armed := ⟨s.nextId, current_interval, now + current_interval⟩ :: s.armed
    timer := some s.nextId
    nextId := s.nextId + 1 }

/-- `timer.cancel()` on the handle held by the global `timer` variable:
removes it from the armed set when it is still armed, otherwise a no-op
(cancelling a fired or already-cancelled `threading.Timer` does nothing). -/
def cancelStoredTimer (s : AppState) : AppState :=
  match s.timer with
  | none => s
  | some tid => { s with armed := s.armed.filter (fun t => t.id != tid) }

/-- `notify_and_reschedule`, invoked when timer `tid` actually fires (which
only happens while it is still armed; a cancelled timer never invokes its
callback): the timer leaves the armed set, the notification is sent
unconditionally, and a `delayed_reschedule` thread is started only when
`running` is still set. -/
def fireTimer (tid : Nat) (s : AppState) : AppState :=
  if s.armed.any (fun t => t.id == tid) then
    let s1 := { s with
      armed := s.armed.filter (fun t => t.id != tid)
      notificationsSent := s.notificationsSent + 1 }
    if s1.running then { s1 with pendingResched := s1.pendingResched + 1 } else s1
  else s

/-- The body of `delayed_reschedule` resuming at time `now` after its 0.1 s
sleep: it re-checks `running` and, only if still set, calls
`schedule_notification`. -/
def runDelayedReschedule (now : ℚ) (s : AppState) : AppState :=
  if 0 < s.pendingResched then
    let s1 := { s with pendingResched := s.pendingResched - 1 }
    if s1.running then schedule_notification now s1 else s1
  else s

/-- The timer portion of the settings dialog's `apply_settings`, run at time
`now` with a validated new interval of `newMin` minutes: cancel the stored
timer, set `interval_sec` to the new value, and schedule anew. -/
def apply_settings_reset (now newMin : ℚ) (s : AppState) : AppState :=
  let s1 := cancelStoredTimer s
  let s2 := { s1 with interval_sec := newMin * 60 }
  schedule_notification now s2

/-- The scheduler portion of `cleanup_and_exit`: clear `running`, then
cancel the stored timer and drop the reference (the source's
`if timer: timer.cancel(); timer = None`). -/
def cleanup_and_exit (s : AppState) : AppState :=
  let s1 := { s with running := false }
  match s1.timer with
  | none => s1
  | some tid =>
    { s1 with armed := s1.armed.filter (fun t => t.id != tid), timer := none }

/-- An interleaving event acting on the scheduler state. -/
inductive Ev
  | fire (tid : Nat)
  | delayed (now : ℚ)
  | applyReset (now newMin : ℚ)
  | cleanup
deriving DecidableEq

/-- Effect of one event. -/
def step : Ev → AppState → AppState
  | .fire tid, s => fireTimer tid s
  | .delayed now, s => runDelayedReschedule now s
  | .applyReset now newMin, s => apply_settings_reset now newMin s
  | .cleanup, s => cleanup_and_exit s

/-- Effect of a sequence of events, first event first. -/
def run : List Ev → AppState → AppState
  | [], s => s
  | e :: rest, s => run rest (step e s)

/-- The globals before `main` arms anything. -/
def startState : AppState :=
  { timer := none
    armed := []
    interval_sec := 0
    next_run_time := none
    running := true
    nextId := 0
    pendingResched := 0
    notificationsSent := 0 }

/-- Events other than the settings-apply reset. -/
def noReset : Ev → Bool
  | .applyReset _ _ => false
  | _ => true

/-- The events a fire callback chain can produce: the timer callback itself
and the delayed-reschedule body. -/
def firePath : Ev → Bool
  | .fire _ => true
  | .delayed _ => true
  | _ => false

/-! ### Countdown display -/

/-- Python's `int()` on a float value, modelled on rationals: truncation
toward zero. -/
def pyInt (q : ℚ) : ℤ := if 0 ≤ q then ⌊q⌋ else ⌈q⌉

/-- The remaining-seconds computation of `update_countdown`:
`remaining = int(next_run_time - time.time())`, clamped below at 0. -/
def countdown_remaining (next_run now : ℚ) : ℤ :=
  let remaining := pyInt (next_run - now)
  if remaining < 0 then 0 else remaining

/-! ### The config-file write of apply_settings -/

/-- An atomic file-system action on the config file. -/
inductive FsOp
  | truncate
  | write (s : String)
deriving DecidableEq

/-- `apply_settings` persists the updated record with
`open(path, "w")` followed by `json.dump`: opening in mode `w` truncates
the file in place, then the serialised record is written.  No temporary
file and no rename are involved. -/
def apply_settings_save (newContent : String) : List FsOp :=
  [.truncate, .write newContent]

/-- Replay file operations on the config file's contents. -/
def runFs : List FsOp → String → String
  | [], c => c
  | .truncate :: rest, _ => runFs rest ""
  | .write str :: rest, c => runFs rest (c ++ str)

/-! ### Settings window management -/

/-- The window-related globals: the `settings_window` reference, the set of
currently existing (not destroyed) settings Toplevels, the focused window,
and a fresh-id supply for newly created windows. -/
structure UiState where
  settings_window : Option Nat
  existing : List Nat
  focused : Option Nat
  nextWin : Nat
deriving DecidableEq

/-- `create_settings_window`: when the stored reference points at a window
that still exists (`winfo_exists`), only lift and focus it and return;
otherwise create a fresh Toplevel, store it in the reference and focus
it. -/
def create_settings_window (s : UiState) : UiState :=
  match s.settings_window with
  | some w =>
    if s.existing.contains w then { s with focused := some w }
    else
      { s with settings_window := some s.nextWin
               existing := s.nextWin :: s.existing
               focused := some s.nextWin
               nextWin := s.nextWin + 1 }
  | none =>
      { s with settings_window := some s.nextWin
               existing := s.nextWin :: s.existing
               focused := some s.nextWin
               nextWin := s.nextWin + 1 }

/-- `on_closing` for window `w`: clear the `settings_window` reference and
destroy the window. -/
def on_closing (w : Nat) (s : UiState) : UiState :=
  { s with settings_window := none
           existing := s.existing.filter (fun x => x != w) }

/-- A sequence of `n` consecutive `open_settings` commands. -/
def openSettingsIter : Nat → UiState → UiState
  | 0, s => s
  | n + 1, s => openSettingsIter n (create_settings_window s)

/-! ### Auto-start registrar -/

/-- The per-user Run registry key: its named values, plus whether the
secondary StretchReminderInfo key exists. -/
structure Registry where
  runValues : List (String × String)
  infoKey : Bool
deriving DecidableEq

/-- `set_auto_start`.  Enabling writes the executable path under `APP_NAME`
and creates the info key; disabling deletes the value — the
`FileNotFoundError` raised by `DeleteValue` when the value is absent is
caught and logged as already disabled — and deletes the info key, again
ignoring `FileNotFoundError`.  Both directions then return `True`. -/
def set_auto_start (enable : Bool) (exePath : String) (reg : Registry) :
    Bool × Registry :=
  if enable then
    (true, { runValues :=
               (APP_NAME, exePath) ::
                 reg.runValues.filter (fun e => e.1 != APP_NAME)
             infoKey := true })
  else
    (true, { runValues := reg.runValues.filter (fun e => e.1 != APP_NAME)
             infoKey := false })

/-! ### Tray menu and command loop -/

/-- The tray menu built by `create_tray_icon`: each item's label paired
with the command its callback (`on_open_settings`, `on_exit`) puts on the
command queue. -/
def tray_menu : List (String × String) :=
  [("설정 열기", "open_settings"), ("종료", "exit")]

/-- Every command a tray-side producer ever enqueues: the two menu
callbacks, plus the exit command posted by `create_tray_icon`'s failure
handler. -/
def tray_commands : List String := tray_menu.map Prod.snd ++ ["exit"]

/-- Observable effects of the main command loop. -/
structure LoopState where
  running : Bool
  toggleTaken : Nat
  settingsOpened : Nat
  exited : Bool
deriving DecidableEq

/-- One iteration of `process_commands` on a dequeued command: exit clears
`running` and starts teardown, open_settings opens or focuses the dialog,
toggle_auto_start flips the registrar.  Once `running` is cleared the loop
has stopped and no further command is acted on. -/
def process_command (cmd : String) (s : LoopState) : LoopState :=
  if s.running = false then s
  else if cmd = "exit" then { s with running := false, exited := true }
  else if cmd = "open_settings" then
    { s with settingsOpened := s.settingsOpened + 1 }
  else if cmd = "toggle_auto_start" then
    { s with toggleTaken := s.toggleTaken + 1 }
  else s

/-- `process_commands` draining the queue in FIFO order. -/
def process_commands : List String → LoopState → LoopState
  | [], s => s
  | c :: rest, s => process_commands rest (process_command c s)

/-- C4: `validate_interval` returns `max(0.1, v)` for every parsed value `v`
with `0 < v ≤ 1440`, and raises the invalid-interval error for non-numeric
input, for `v ≤ 0` and for `v > 1440`. -/
theorem validate_interval_spec (v : ℚ) :
    (0 < v → v ≤ 1440 → validate_interval (some v) = .ok (max (1/10) v)) ∧
    (v ≤ 0 → validate_interval (some v) = .error "유효한 숫자를 입력해주세요.") ∧
    (1440 < v → validate_interval (some v) = .error "유효한 숫자를 입력해주세요.") ∧
    validate_interval none = .error "유효한 숫자를 입력해주세요." := by
  refine ⟨?_, ?_, ?_, rfl⟩
  · intro h1 h2
    simp [validate_interval, not_le.mpr h1, not_lt.mpr h2]
  · intro h
    simp [validate_interval, h]
  · intro h
    have h0 : ¬ v ≤ 0 := by linarith
    simp [validate_interval, h0, h]

/-- Witness for C4 at the inputs 7, -3 and 2000. -/
theorem validate_interval_spec_witness :
    validate_interval (some 7) = .ok (max (1/10) 7) ∧
    validate_interval (some (-3)) = .error "유효한 숫자를 입력해주세요." ∧
    validate_interval (some 2000) = .error "유효한 숫자를 입력해주세요." :=
  ⟨(validate_interval_spec 7).1 (by norm_num) (by norm_num),
   (validate_interval_spec (-3)).2.1 (by norm_num),
   (validate_interval_spec 2000).2.2.1 (by norm_num)⟩

lemma length_filter_lt_of_any (l : List TimerHandle) (tid : Nat)
    (h : l.any (fun t => t.id == tid) = true) :
    (l.filter (fun t => t.id != tid)).length < l.length := by
  induction l with
  | nil => simp at h
  | cons a l ih =>
    by_cases ha : a.id = tid
    · have heq : (a :: l).filter (fun t => t.id != tid) =
        l.filter (fun t => t.id != tid) := by
        simp [List.filter_cons, ha]
      rw [heq]
      exact Nat.lt_succ_of_le (List.length_filter_le _ _)
    · have h1 : l.any (fun t => t.id == tid) = true := by
        rcases List.any_eq_true.mp h with ⟨x, hx, hxid⟩
        rcases List.mem_cons.mp hx with rfl | hx2
        · exact absurd (beq_iff_eq.mp hxid) ha
        · exact List.any_eq_true.mpr ⟨x, hx2, hxid⟩
      have heq : (a :: l).filter (fun t => t.id != tid) =
          a :: l.filter (fun t => t.id != tid) := by
        simp [List.filter_cons, ha]
      rw [heq]
      simpa using Nat.succ_lt_succ (ih h1)

/-- A fire, delayed-reschedule or cleanup event never increases the number
of armed timers plus sleeping delayed reschedules. -/
lemma step_measure_le (e : Ev) (s : AppState) (he : noReset e = true) :
    (step e s).armed.length + (step e s).pendingResched ≤
      s.armed.length + s.pendingResched := by
  cases e with
  | fire tid =>
    simp only [step, fireTimer]
    by_cases h : s.armed.any (fun t => t.id == tid) = true
    · have hlt := length_filter_lt_of_any s.armed tid h
      by_cases hr : s.running = true
      · simp only [h, if_true, hr]
        simp
        omega
      · simp only [h, if_true, hr, if_false]
        simp only [Bool.not_eq_true] at hr
        simp [hr]
        omega
    · simp [h]
  | delayed now =>
    simp only [step, runDelayedReschedule]
    by_cases h : 0 < s.pendingResched
    · by_cases hr : s.running = true
      · simp only [h, if_true, hr, schedule_notification, List.length_cons]
        omega
      · simp only [Bool.not_eq_true] at hr
        simp [h, hr]
    · simp [h]
  | cleanup =>
    simp only [step, cleanup_and_exit]
    cases ht : s.timer with
    | none => simp
    | some tid =>
      have := List.length_filter_le (fun t => t.id != tid) s.armed
      simp
      omega
  | applyReset now newMin => simp [noReset] at he

/-- C1 (amended): `schedule_notification` does not cancel the previously
started timer, so the one-armed-timer invariant is only maintained on
executions without a settings-apply reset: starting from a state with at
most one armed timer and no other pending rearm, any sequence of timer
fires, delayed reschedules and cleanups leaves at most one timer armed.
A reset racing a pending delayed reschedule breaks it (see the
counterexample for this claim). -/
theorem single_timer_invariant (evs : List Ev) (s : AppState)
    (hevs : evs.all noReset = true)
    (hs : s.armed.length + s.pendingResched ≤ 1) :
    (run evs s).armed.length + (run evs s).pendingResched ≤ 1 := by
  induction evs generalizing s with
  | nil => exact hs
  | cons e rest ih =>
    simp only [List.all_cons, Bool.and_eq_true] at hevs
    exact ih (step e s) hevs.2 (le_trans (step_measure_le e s hevs.1) hs)

/-- Witness for the amended C1 theorem on a concrete fire/reschedule/cleanup
trace from the startup arm. -/
theorem single_timer_invariant_witness :
    (run [Ev.fire 0, Ev.delayed 61, Ev.cleanup]
        (schedule_notification 0
          { startState with interval_sec := 60 })).armed.length +
      (run [Ev.fire 0, Ev.delayed 61, Ev.cleanup]
        (schedule_notification 0
          { startState with interval_sec := 60 })).pendingResched ≤ 1 :=
  single_timer_invariant [Ev.fire 0, Ev.delayed 61, Ev.cleanup]
    (schedule_notification 0 { startState with interval_sec := 60 })
    (by decide) (by decide)

/-- Counterexample to C1 as stated: the timer armed at startup with a
100-minute interval fires at `t = 6000`; the settings dialog applies a
2-minute interval at the same instant (cancelling only the already-fired
stored timer, a no-op) and arms a new timer; the fire callback's delayed
reschedule then wakes and arms a second timer — two timers are outstanding
after one arm/reset cycle, so an arm operation did not cancel the existing
outstanding timer. -/
theorem two_timers_after_reset_race :
    (run [Ev.fire 0, Ev.applyReset 6000 2, Ev.delayed 6001]
        (schedule_notification 0
          { startState with interval_sec := 6000 })).armed.length = 2 := by
  decide

/-- C2: if the settings dialog applies a new interval of `newMin` minutes at
time `now` while the timer armed with the old interval is still outstanding,
the reset cancels that timer and arms a single fresh one: afterwards
`next_run_time = now + newMin * 60` and the only armed timer fires at
`now + newMin * 60`, not at the old timer's fire time. -/
theorem reset_uses_new_interval (now newMin : ℚ) (s : AppState)
    (t : TimerHandle) (hT : s.timer = some t.id) (hA : s.armed = [t]) :
    (apply_settings_reset now newMin s).next_run_time =
      some (now + newMin * 60) ∧
    (apply_settings_reset now newMin s).armed =
      [⟨s.nextId, newMin * 60, now + newMin * 60⟩] := by
  simp [apply_settings_reset, cancelStoredTimer, schedule_notification, hT, hA]

/-- Witness for C2: the startup timer armed at time 0 with a 300-second
interval is reset at time 10 to 2 minutes. -/
theorem reset_uses_new_interval_witness :
    (apply_settings_reset 10 2
        (schedule_notification 0
          { startState with interval_sec := 300 })).next_run_time =
      some (10 + 2 * 60) ∧
    (apply_settings_reset 10 2
        (schedule_notification 0
          { startState with interval_sec := 300 })).armed =
      [⟨(schedule_notification 0
          { startState with interval_sec := 300 }).nextId,
        2 * 60, 10 + 2 * 60⟩] :=
  reset_uses_new_interval 10 2
    (schedule_notification 0 { startState with interval_sec := 300 })
    ⟨0, 300, 300⟩ rfl (by simp [schedule_notification, startState])

lemma run_firePath_stopped (evs : List Ev) (s : AppState)
    (hevs : evs.all firePath = true) (hr : s.running = false) :
    (run evs s).nextId = s.nextId ∧
    (run evs s).armed.length ≤ s.armed.length ∧
    (run evs s).running = false := by
  induction evs generalizing s with
  | nil => exact ⟨rfl, le_refl _, hr⟩
  | cons e rest ih =>
    simp only [List.all_cons, Bool.and_eq_true] at hevs
    obtain ⟨he, hrest⟩ := hevs
    have hstep : (step e s).nextId = s.nextId ∧
        (step e s).armed.length ≤ s.armed.length ∧
        (step e s).running = false := by
      cases e with
      | fire tid =>
        simp only [step, fireTimer]
        by_cases h : s.armed.any (fun t => t.id == tid) = true
        · simp [h, hr]
          exact List.length_filter_le _ _
        · simp [h, hr]
      | delayed now =>
        simp only [step, runDelayedReschedule]
        by_cases h : 0 < s.pendingResched
        · simp [h, hr]
        · simp [h, hr]
      | applyReset a b => simp [firePath] at he
      | cleanup => simp [firePath] at he
    obtain ⟨h1, h2, h3⟩ := hstep
    obtain ⟨g1, g2, g3⟩ := ih (step e s) hrest h3
    exact ⟨g1.trans h1, le_trans g2 h2, g3⟩

/-- C3: `cleanup_and_exit` is idempotent, and after it runs no fire
callback or delayed reschedule already in flight ever arms a new timer:
on any such trace the fresh-id supply never advances (so
`schedule_notification` is never reached), the armed set only shrinks, and
the running guard stays cleared. -/
theorem shutdown_no_rearm (s : AppState) (evs : List Ev)
    (hevs : evs.all firePath = true) :
    cleanup_and_exit (cleanup_and_exit s) = cleanup_and_exit s ∧
    (run evs (cleanup_and_exit s)).nextId = (cleanup_and_exit s).nextId ∧
    (run evs (cleanup_and_exit s)).armed.length ≤
      (cleanup_and_exit s).armed.length ∧
    (run evs (cleanup_and_exit s)).running = false := by
  have hr : (cleanup_and_exit s).running = false := by
    cases ht : s.timer with
    | none => simp [cleanup_and_exit, ht]
    | some tid => simp [cleanup_and_exit, ht]
  refine ⟨?_, run_firePath_stopped evs _ hevs hr⟩
  cases ht : s.timer with
  | none => simp [cleanup_and_exit, ht]
  | some tid => simp [cleanup_and_exit, ht]

/-- Witness for C3 on a concrete state that still has one armed timer and
one sleeping delayed reschedule when shutdown happens. -/
theorem shutdown_no_rearm_witness :
    cleanup_and_exit (cleanup_and_exit
      { startState with armed := [⟨3, 60, 60⟩], timer := some 3,
                        pendingResched := 1, nextId := 4 }) =
      cleanup_and_exit
        { startState with armed := [⟨3, 60, 60⟩], timer := some 3,
                          pendingResched := 1, nextId := 4 } ∧
    (run [Ev.delayed 5, Ev.fire 3]
        (cleanup_and_exit
          { startState with armed := [⟨3, 60, 60⟩], timer := some 3,
                            pendingResched := 1, nextId := 4 })).nextId =
      (cleanup_and_exit
        { startState with armed := [⟨3, 60, 60⟩], timer := some 3,
                          pendingResched := 1, nextId := 4 }).nextId ∧
    (run [Ev.delayed 5, Ev.fire 3]
        (cleanup_and_exit
          { startState with armed := [⟨3, 60, 60⟩], timer := some 3,
                            pendingResched := 1, nextId := 4 })).armed.length ≤
      (cleanup_and_exit
        { startState with armed := [⟨3, 60, 60⟩], timer := some 3,
                          pendingResched := 1, nextId := 4 }).armed.length ∧
    (run [Ev.delayed 5, Ev.fire 3]
        (cleanup_and_exit
          { startState with armed := [⟨3, 60, 60⟩], timer := some 3,
                            pendingResched := 1, nextId := 4 })).running = false :=
  shutdown_no_rearm
    { startState with armed := [⟨3, 60, 60⟩], timer := some 3,
                      pendingResched := 1, nextId := 4 }
    [Ev.delayed 5, Ev.fire 3] (by decide)

lemma countdown_remaining_eq (next_run now : ℚ) :
    countdown_remaining next_run now =
      if pyInt (next_run - now) < 0 then 0 else pyInt (next_run - now) := rfl

lemma pyInt_intCast (d : ℤ) : pyInt (d : ℚ) = d := by
  unfold pyInt
  split <;> simp

lemma pyInt_nonpos (q : ℚ) (h : q ≤ 0) : pyInt q ≤ 0 := by
  unfold pyInt
  split
  · have hq : q = 0 := le_antisymm h (by assumption)
    simp [hq]
  · exact Int.ceil_le.mpr (by exact_mod_cast h)

/-- C7: the displayed countdown value is never negative, equals the
clamp-at-zero of the truncated difference `next_run_time - now`, is 0 as
soon as the fire time has passed, and on whole-second differences equals
`max 0 (next_run_time - now)` exactly. -/
theorem countdown_spec (next_run now : ℚ) :
    0 ≤ countdown_remaining next_run now ∧
    countdown_remaining next_run now = max 0 (pyInt (next_run - now)) ∧
    (next_run ≤ now → countdown_remaining next_run now = 0) ∧
    ∀ d : ℤ, countdown_remaining (now + d) now = max 0 d := by
  have hmax : ∀ r : ℤ, (if r < 0 then (0 : ℤ) else r) = max 0 r := by
    intro r
    rcases le_or_lt 0 r with h | h
    · rw [if_neg (not_lt.mpr h), max_eq_right h]
    · rw [if_pos h, max_eq_left h.le]
  refine ⟨?_, hmax _, ?_, ?_⟩
  · rw [countdown_remaining_eq]
    split
    · exact le_refl 0
    · exact le_of_not_lt (by assumption)
  · intro h
    have h1 : pyInt (next_run - now) ≤ 0 := pyInt_nonpos _ (by linarith)
    rw [countdown_remaining_eq]
    split
    · rfl
    · omega
  · intro d
    have harg : now + (d : ℚ) - now = (d : ℚ) := by ring
    rw [countdown_remaining_eq, harg, pyInt_intCast, hmax]

/-- Witness for C7: ten seconds past the fire time the display shows 0. -/
theorem countdown_spec_witness : countdown_remaining 3 13 = 0 :=
  (countdown_spec 3 13).2.2.1 (by norm_num)

/-- Counterexample to C5 as stated: a config file whose interval field is
out of range (2000) but whose `icon_path` field is valid ("custom.ico").
The claim says only the invalid field is replaced and every valid field
keeps its on-disk value; `load_config` instead returns the full default
record, so the valid `icon_path` does not survive. -/
theorem load_config_discards_valid_fields :
    (load_config (.object
      { interval_min := some (some 2000)
        icon_path := some "custom.ico"
        log_file := none
        auto_start := none
        minimize_to_tray := none })).1 = defaultConfig ∧
    (load_config (.object
      { interval_min := some (some 2000)
        icon_path := some "custom.ico"
        log_file := none
        auto_start := none
        minimize_to_tray := none })).1.icon_path ≠ "custom.ico" := by
  constructor
  · norm_num [load_config, validate_interval]
  · norm_num [load_config, validate_interval, defaultConfig]
    decide

/-- C5 (amended): `load_config` never aborts — it always returns a record —
but on a malformed file it substitutes the whole default record, not just
the invalid fields: a JSON parse failure and an invalid interval both yield
the full defaults (valid on-disk fields are discarded); only when the file
parses and its interval validates are missing fields individually defaulted
while the present fields keep their on-disk values. -/
theorem load_config_whole_default_on_invalid (raw : RawConfig) :
    load_config .malformed = (defaultConfig, .malformed) ∧
    (∀ e, validate_interval (raw.interval_min.getD (some 60)) = .error e →
      load_config (.object raw) = (defaultConfig, .object raw)) ∧
    (∀ v, validate_interval (raw.interval_min.getD (some 60)) = .ok v →
      load_config (.object raw) =
        ({ interval_min := v
           icon_path := raw.icon_path.getD "icon.ico"
           log_file := raw.log_file.getD "stretch_reminder.log"
           auto_start := raw.auto_start.getD false
           minimize_to_tray := raw.minimize_to_tray.getD true },
         .object raw)) := by
  refine ⟨rfl, ?_, ?_⟩
  · intro e he
    simp [load_config, he]
  · intro v hv
    simp [load_config, hv]

/-- Witness for the amended C5 theorem: the out-of-range file from the
counterexample collapses to the full defaults, and a valid file with a
30-minute interval and a custom icon keeps its fields while missing fields
take their defaults. -/
theorem load_config_whole_default_on_invalid_witness :
    load_config (.object
      { interval_min := some (some 2000)
        icon_path := some "custom.ico"
        log_file := none
        auto_start := none
        minimize_to_tray := none }) =
      (defaultConfig, .object
        { interval_min := some (some 2000)
          icon_path := some "custom.ico"
          log_file := none
          auto_start := none
          minimize_to_tray := none }) ∧
    load_config (.object
      { interval_min := some (some 30)
        icon_path := some "custom.ico"
        log_file := none
        auto_start := some true
        minimize_to_tray := none }) =
      ({ interval_min := 30
         icon_path := "custom.ico"
         log_file := "stretch_reminder.log"
         auto_start := true
         minimize_to_tray := true }, .object
        { interval_min := some (some 30)
          icon_path := some "custom.ico"
          log_file := none
          auto_start := some true
          minimize_to_tray := none }) :=
  ⟨(load_config_whole_default_on_invalid
      { interval_min := some (some 2000)
        icon_path := some "custom.ico"
        log_file := none
        auto_start := none
        minimize_to_tray := none }).2.1 "유효한 숫자를 입력해주세요."
      (by norm_num [validate_interval]),
   (load_config_whole_default_on_invalid
      { interval_min := some (some 30)
        icon_path := some "custom.ico"
        log_file := none
        auto_start := some true
        minimize_to_tray := none }).2.2 30
      (by norm_num [validate_interval])⟩

/-- Counterexample to C6 as stated: crashing after the first step of the
save (the truncation) leaves the config file holding neither the old nor
the new contents — the previously valid file is corrupted. -/
theorem save_crash_loses_old_contents :
    runFs ((apply_settings_save "new").take 1) "old" ≠ "old" ∧
    runFs ((apply_settings_save "new").take 1) "old" ≠ "new" := by
  decide

/-- C6 (amended): the settings dialog's apply handler overwrites the config
file in place by truncate-then-write, not by write-then-rename: a completed
save leaves exactly the new contents, but a crash between the truncation
and the write leaves an empty file, which differs from both the old and the
new contents whenever they are non-empty. -/
theorem save_not_atomic (old new : String) (hold : old ≠ "") (hnew : new ≠ "") :
    runFs (apply_settings_save new) old = new ∧
    runFs ((apply_settings_save new).take 1) old = "" ∧
    runFs ((apply_settings_save new).take 1) old ≠ old ∧
    runFs ((apply_settings_save new).take 1) old ≠ new := by
  refine ⟨?_, rfl, ?_, ?_⟩
  · show "" ++ new = new
    exact String.empty_append new
  · exact fun hc => hold hc.symm
  · exact fun hc => hnew hc.symm

/-- Witness for the amended C6 theorem on concrete old and new contents. -/
theorem save_not_atomic_witness :
    runFs (apply_settings_save "newcfg") "oldcfg" = "newcfg" ∧
    runFs ((apply_settings_save "newcfg").take 1) "oldcfg" = "" ∧
    runFs ((apply_settings_save "newcfg").take 1) "oldcfg" ≠ "oldcfg" ∧
    runFs ((apply_settings_save "newcfg").take 1) "oldcfg" ≠ "newcfg" :=
  save_not_atomic "oldcfg" "newcfg" (by decide) (by decide)

/-- C8: while the settings window `w` is open and existing, any number of
further `open_settings` commands leaves exactly that one window existing
(each call only refocuses `w`, creating nothing — the fresh-id supply
and the reference are untouched); closing clears the reference, and the
next `open_settings` then creates a fresh window and stores it. -/
theorem settings_window_unique (w n : Nat) (s : UiState)
    (hw : s.settings_window = some w) (hex : s.existing = [w]) :
    (openSettingsIter n s).existing = [w] ∧
    (openSettingsIter n s).settings_window = some w ∧
    (openSettingsIter n s).nextWin = s.nextWin ∧
    (on_closing w (openSettingsIter n s)).settings_window = none ∧
    (on_closing w (openSettingsIter n s)).existing = [] ∧
    (create_settings_window (on_closing w (openSettingsIter n s))).existing =
      [s.nextWin] ∧
    (create_settings_window
        (on_closing w (openSettingsIter n s))).settings_window =
      some s.nextWin := by
  have key : ∀ m t, t.settings_window = some w → t.existing = [w] →
      (openSettingsIter m t).settings_window = some w ∧
      (openSettingsIter m t).existing = [w] ∧
      (openSettingsIter m t).nextWin = t.nextWin := by
    intro m
    induction m with
    | zero => exact fun t h1 h2 => ⟨h1, h2, rfl⟩
    | succ k ih =>
      intro t h1 h2
      have hc : create_settings_window t = { t with focused := some w } := by
        simp [create_settings_window, h1, h2]
      have hstep : openSettingsIter (k + 1) t =
          openSettingsIter k (create_settings_window t) := rfl
      rw [hstep, hc]
      exact ih { t with focused := some w } h1 h2
  obtain ⟨g1, g2, g3⟩ := key n s hw hex
  refine ⟨g2, g1, g3, rfl, ?_, ?_, ?_⟩
  · simp [on_closing, g2]
  · simp [create_settings_window, on_closing, g2, g3]
  · simp [create_settings_window, on_closing, g2, g3]

/-- Witness for C8: two repeated `open_settings` calls on an open window 0,
then a close and a reopen. -/
theorem settings_window_unique_witness :
    (openSettingsIter 2
      { settings_window := some 0, existing := [0]
        focused := some 0, nextWin := 1 }).existing = [0] ∧
    (openSettingsIter 2
      { settings_window := some 0, existing := [0]
        focused := some 0, nextWin := 1 }).settings_window = some 0 ∧
    (openSettingsIter 2
      { settings_window := some 0, existing := [0]
        focused := some 0, nextWin := 1 }).nextWin = 1 ∧
    (on_closing 0 (openSettingsIter 2
      { settings_window := some 0, existing := [0]
        focused := some 0, nextWin := 1 })).settings_window = none ∧
    (on_closing 0 (openSettingsIter 2
      { settings_window := some 0, existing := [0]
        focused := some 0, nextWin := 1 })).existing = [] ∧
    (create_settings_window (on_closing 0 (openSettingsIter 2
      { settings_window := some 0, existing := [0]
        focused := some 0, nextWin := 1 }))).existing = [1] ∧
    (create_settings_window (on_closing 0 (openSettingsIter 2
      { settings_window := some 0, existing := [0]
        focused := some 0, nextWin := 1 }))).settings_window = some 1 :=
  settings_window_unique 0 2
    { settings_window := some 0, existing := [0]
      focused := some 0, nextWin := 1 } rfl rfl

/-- C9: with the config file absent, `load_config` creates it with the
default record (interval 60 minutes) and returns that record; startup then
arms the first reminder with `60 * 60 = 3600` seconds and records
`next_fire_time = now + 3600`; and disabling auto-start when the
registration is already absent reports success and leaves it absent. -/
theorem first_run_defaults (now : ℚ) (exePath : String) (reg : Registry)
    (habs : reg.runValues.all (fun e => e.1 != APP_NAME) = true) :
    (load_config .absent).1 = defaultConfig ∧
    (load_config .absent).2 = .object (rawOfConfig defaultConfig) ∧
    defaultConfig.interval_min = 60 ∧
    (schedule_notification now
        { startState with
            interval_sec :=
              (load_config .absent).1.interval_min * 60 }).next_run_time =
      some (now + 3600) ∧
    (schedule_notification now
        { startState with
            interval_sec := (load_config .absent).1.interval_min * 60 }).armed =
      [⟨0, 3600, now + 3600⟩] ∧
    (set_auto_start false exePath reg).1 = true ∧
    (set_auto_start false exePath reg).2.runValues = reg.runValues ∧
    (set_auto_start false exePath reg).2.runValues.all
      (fun e => e.1 != APP_NAME) = true := by
  have hfilter : reg.runValues.filter (fun e => e.1 != APP_NAME) =
      reg.runValues :=
    List.filter_eq_self.mpr (List.all_eq_true.mp habs)
  have h3600 : defaultConfig.interval_min * 60 = (3600 : ℚ) := by
    norm_num [defaultConfig]
  refine ⟨rfl, rfl, rfl, ?_, ?_, rfl, ?_, ?_⟩
  · show some (now + defaultConfig.interval_min * 60) = some (now + 3600)
    rw [h3600]
  · show [⟨0, defaultConfig.interval_min * 60,
        now + defaultConfig.interval_min * 60⟩] =
      ([⟨0, 3600, now + 3600⟩] : List TimerHandle)
    rw [h3600]
  · show reg.runValues.filter (fun e => e.1 != APP_NAME) = reg.runValues
    exact hfilter
  · show (reg.runValues.filter (fun e => e.1 != APP_NAME)).all
        (fun e => e.1 != APP_NAME) = true
    rw [hfilter]
    exact habs

/-- Witness for C9 at time 0 with a registry that holds only an unrelated
Run value. -/
theorem first_run_defaults_witness :
    (load_config .absent).1 = defaultConfig ∧
    (load_config .absent).2 = .object (rawOfConfig defaultConfig) ∧
    defaultConfig.interval_min = 60 ∧
    (schedule_notification 0
        { startState with
            interval_sec :=
              (load_config .absent).1.interval_min * 60 }).next_run_time =
      some (0 + 3600) ∧
    (schedule_notification 0
        { startState with
            interval_sec := (load_config .absent).1.interval_min * 60 }).armed =
      [⟨0, 3600, 0 + 3600⟩] ∧
    (set_auto_start false "C:/StretchReminder.exe"
        { runValues := [("Other", "other.exe")], infoKey := false }).1 = true ∧
    (set_auto_start false "C:/StretchReminder.exe"
        { runValues := [("Other", "other.exe")], infoKey := false }).2.runValues =
      ({ runValues := [("Other", "other.exe")],
         infoKey := false } : Registry).runValues ∧
    (set_auto_start false "C:/StretchReminder.exe"
        { runValues := [("Other", "other.exe")],
          infoKey := false }).2.runValues.all
      (fun e => e.1 != APP_NAME) = true :=
  first_run_defaults 0 "C:/StretchReminder.exe"
    { runValues := [("Other", "other.exe")], infoKey := false } (by decide)

lemma process_command_toggle (c : String) (s : LoopState)
    (h : c ≠ "toggle_auto_start") :
    (process_command c s).toggleTaken = s.toggleTaken := by
  unfold process_command
  repeat' split
  all_goals rfl

lemma process_commands_no_toggle (cmds : List String) (s : LoopState)
    (hc : ∀ c ∈ cmds, c ∈ tray_commands) (h0 : s.toggleTaken = 0) :
    (process_commands cmds s).toggleTaken = 0 := by
  induction cmds generalizing s with
  | nil => exact h0
  | cons c rest ih =>
    have hmem : c ∈ tray_commands := hc c (by simp)
    have hnot : ¬ ("toggle_auto_start" : String) ∈ tray_commands := by decide
    have hcne : c ≠ "toggle_auto_start" := fun heq => hnot (heq ▸ hmem)
    exact ih (process_command c s)
      (fun x hx => hc x (by simp [hx]))
      ((process_command_toggle c s hcne).trans h0)

/-- C10: the tray menu posts no toggle_auto_start command — its items post
only open_settings and exit — so on any queue filled exclusively by the
tray-side producers the main loop's toggle_auto_start branch is never
taken. -/
theorem tray_never_toggles (cmds : List String) (s : LoopState)
    (hc : ∀ c ∈ cmds, c ∈ tray_commands) (h0 : s.toggleTaken = 0) :
    tray_menu.all (fun e => e.2 != "toggle_auto_start") = true ∧
    tray_commands = ["open_settings", "exit", "exit"] ∧
    (process_commands cmds s).toggleTaken = 0 :=
  ⟨by decide, by decide, process_commands_no_toggle cmds s hc h0⟩

/-- Witness for C10 on the queue open_settings, exit, open_settings. -/
theorem tray_never_toggles_witness :
    tray_menu.all (fun e => e.2 != "toggle_auto_start") = true ∧
    tray_commands = ["open_settings", "exit", "exit"] ∧
    (process_commands ["open_settings", "exit", "open_settings"]
      { running := true, toggleTaken := 0, settingsOpened := 0,
        exited := false }).toggleTaken = 0 :=
  tray_never_toggles ["open_settings", "exit", "open_settings"]
    { running := true, toggleTaken := 0, settingsOpened := 0, exited := false }
    (by decide) rfl

end StretchReminder
